import Mathlib

/-!
Shallow embedding of the core of the `onedatareport` repository
(drift analysis, profiling reduction, columnar storage) and proofs of
the specification claims about it.

Conventions of the embedding:
* a pandas `DataFrame` is a `Frame α`: an ordered association list of
  named columns, each an ordered list of values;
* a Python `dict` is an ordered association list (insertion order kept,
  first matching key wins on lookup, as for a dict with unique keys);
* fallible Python code (KeyError, FileNotFoundError, ValueError) is
  `Except String`;
* external collaborators (scipy, statsmodels, ydata-profiling) are
  embedded only to the extent the analysed code depends on their
  documented behaviour (length checks, degenerate-input errors,
  moving-average trend values), or passed in as parameters.
-/

namespace OneDataReport

/-- A dataframe: ordered named columns over value type `α`. -/
structure Frame (α : Type) where
  cols : List (String × List α)
  deriving DecidableEq, Repr

namespace Frame

/-- Column lookup, `df[c]`: first column named `c`, if any. -/
def getCol {α : Type} (f : Frame α) (c : String) : Option (List α) :=
  (f.cols.find? (fun p => p.1 == c)).map (fun p => p.2)

/-- Column lookup raising `KeyError` when the column is absent. -/
def getColE {α : Type} (f : Frame α) (c : String) : Except String (List α) :=
  match f.getCol c with
  | some v => Except.ok v
  | none => Except.error "KeyError"

/-- `df[[c]]`: the sub-frame holding the columns named `c`. -/
def select {α : Type} (f : Frame α) (c : String) : Frame α :=
  ⟨f.cols.filter (fun p => p.1 == c)⟩

/-- The list of column names, `df.columns`. -/
def names {α : Type} (f : Frame α) : List String :=
  f.cols.map (fun p => p.1)

/-- `df.set_index(t)`: `t` becomes the index and leaves the columns;
raises `KeyError` when `t` is not a column. -/
def set_index {α : Type} (f : Frame α) (t : String) : Except String (Frame α) :=
  if t ∈ f.names then
    Except.ok ⟨f.cols.filter (fun p => p.1 != t)⟩
  else
    Except.error "KeyError"

end Frame

/-! ## detect_new_categorical_values (analysis/trend.py)

The source computes `set(original_df[c].unique())`,
`set(new_df[c].unique())`, their difference, and returns
`{'new_values': list(diff)}` when the difference is non-empty and `{}`
otherwise.  The presence or absence of the `new_values` key is embedded
as an `Option`; the set difference is embedded as the deduplicated new
values filtered by non-membership in the original values (Python leaves
the order of `list(set - set)` unspecified; the claims are only about
set contents). -/

def detect_new_categorical_values {α : Type} [DecidableEq α]
    (original_df new_df : Frame α) (column_name : String) :
    Except String (Option (List α)) := do
  let ocol ← original_df.getColE column_name
  let ncol ← new_df.getColE column_name
  let original_values := ocol.dedup
  let new_values := ncol.dedup
  let new_entries := new_values.filter (fun v => !(decide (v ∈ original_values)))
  return if new_entries.isEmpty then none else some new_entries

theorem detect_new_mem {α : Type} [DecidableEq α]
    (ov nv : List α) (x : α) :
    (x ∈ nv.dedup.filter (fun v => !(decide (v ∈ ov.dedup)))) ↔ (x ∈ nv ∧ x ∉ ov) := by
  simp [List.mem_filter, List.mem_dedup]

/-- Claim C1: for all finite value sequences, detect_new_categorical_values
returns no new_values key exactly when every distinct value of the new
column already occurs in the original column; any returned new_values
entry is, as a set, exactly the distinct values of the new column absent
from the original column; and whenever some new value is absent from the
original column, the call does succeed with such a new_values entry. -/
theorem detect_new_categorical_values_spec {α : Type} [DecidableEq α]
    (oF nF : Frame α) (c : String) (ov nv : List α)
    (ho : oF.getCol c = some ov) (hn : nF.getCol c = some nv) :
    (detect_new_categorical_values oF nF c = Except.ok none ↔ ∀ x ∈ nv, x ∈ ov) ∧
    (∀ l, detect_new_categorical_values oF nF c = Except.ok (some l) →
      ∀ x, x ∈ l ↔ (x ∈ nv ∧ x ∉ ov)) ∧
    ((¬ ∀ x ∈ nv, x ∈ ov) →
      ∃ l, detect_new_categorical_values oF nF c = Except.ok (some l) ∧
        ∀ x, x ∈ l ↔ (x ∈ nv ∧ x ∉ ov)) := by
  have hrun : detect_new_categorical_values oF nF c =
      Except.ok (if (nv.dedup.filter (fun v => !(decide (v ∈ ov.dedup)))).isEmpty then none
        else some (nv.dedup.filter (fun v => !(decide (v ∈ ov.dedup))))) := by
    unfold detect_new_categorical_values Frame.getColE
    rw [ho, hn]
    rfl
  have hsub : (nv.dedup.filter (fun v => !(decide (v ∈ ov.dedup)))).isEmpty = true ↔
      (∀ x ∈ nv, x ∈ ov) := by
    rw [List.isEmpty_iff, List.eq_nil_iff_forall_not_mem]
    constructor
    · intro h x hx
      by_contra hxo
      exact h x ((detect_new_mem ov nv x).mpr ⟨hx, hxo⟩)
    · intro h x hx
      rcases (detect_new_mem ov nv x).mp hx with ⟨hxn, hxo⟩
      exact hxo (h x hxn)
  cases hemp : (nv.dedup.filter (fun v => !(decide (v ∈ ov.dedup)))).isEmpty with
  | true =>
    rw [hemp] at hrun
    have hall : ∀ x ∈ nv, x ∈ ov := hsub.mp hemp
    refine ⟨⟨fun _ => hall, fun _ => by rw [hrun]; rfl⟩, fun l hl => ?_,
      fun hns => absurd hall hns⟩
    rw [hrun] at hl
    exact absurd (Option.noConfusion (Except.ok.inj hl)) (fun h2 => h2)
  | false =>
    rw [hemp] at hrun
    have hnall : ¬ ∀ x ∈ nv, x ∈ ov := by
      intro hall
      rw [hsub.mpr hall] at hemp
      exact Bool.noConfusion hemp
    refine ⟨⟨fun h => ?_, fun h => absurd h hnall⟩, fun l hl x => ?_, fun _ => ?_⟩
    · rw [hrun] at h
      exact absurd (Except.ok.inj h) (fun h2 => Option.noConfusion h2)
    · rw [hrun] at hl
      rw [← Option.some.inj (Except.ok.inj hl)]
      exact detect_new_mem ov nv x
    · exact ⟨_, hrun, fun x => detect_new_mem ov nv x⟩

/-- The original frame of the C1 witness: a categorical column with values a, b. -/
def c1origFrame : Frame String := ⟨[("cat", ["a", "b"])]⟩

/-- The new frame of the C1 witness: a categorical column with values a, c. -/
def c1newFrame : Frame String := ⟨[("cat", ["a", "c"])]⟩

/-- Witness for C1 at the concrete frames of end-to-end scenario A. -/
theorem detect_new_categorical_values_spec_witness :
    (detect_new_categorical_values c1origFrame c1newFrame "cat" = Except.ok none ↔
      ∀ x ∈ ["a", "c"], x ∈ ["a", "b"]) ∧
    (∀ l, detect_new_categorical_values c1origFrame c1newFrame "cat" = Except.ok (some l) →
      ∀ x, x ∈ l ↔ (x ∈ ["a", "c"] ∧ x ∉ ["a", "b"])) ∧
    ((¬ ∀ x ∈ ["a", "c"], x ∈ ["a", "b"]) →
      ∃ l, detect_new_categorical_values c1origFrame c1newFrame "cat" = Except.ok (some l) ∧
        ∀ x, x ∈ l ↔ (x ∈ ["a", "c"] ∧ x ∉ ["a", "b"])) :=
  detect_new_categorical_values_spec c1origFrame c1newFrame "cat" ["a", "b"] ["a", "c"]
    rfl rfl

/-! ## ColumnarDataFrame (data_handling/columnar_dataframe.py)

The store keeps each column in its own pickle file inside a private
temporary directory; at most one column is resident in memory.  The
disk is embedded as an association list from column name (the file
path stem) to the pickled frame, with write-replace semantics; a
counter records the number of `read_pickle` calls (disk round trips). -/

/-- State of a ColumnarDataFrame: column names captured at construction,
the on-disk files of the private temp directory, the resident column
and its name, a read counter, and the temp directory name. -/
structure ColumnarDataFrame (α : Type) where
  columns : List String
  disk : List (String × Frame α)
  current_column : Option (Frame α)
  current_column_name : Option String
  reads : Nat
  temp_dir : String

/-- Writing a file: replace the entry at the path if present, else append. -/
def diskWrite {α : Type} : List (String × Frame α) → String → Frame α → List (String × Frame α)
  | [], k, v => [(k, v)]
  | p :: rest, k, v => if p.1 == k then (k, v) :: rest else p :: diskWrite rest k v

/-- Reading a file at a path, if it exists. -/
def diskRead {α : Type} (d : List (String × Frame α)) (k : String) : Option (Frame α) :=
  (d.find? (fun p => p.1 == k)).map (fun p => p.2)

/-- `store_data`: pickle `df[[col]]` to `{col}.pkl` for every column name. -/
def ColumnarDataFrame.store_data {α : Type} (s : ColumnarDataFrame α) (df : Frame α) :
    ColumnarDataFrame α :=
  { s with disk := s.columns.foldl (fun d c => diskWrite d c (df.select c)) s.disk }

/-- `__init__`: record the column names, allocate the temp directory,
start with an empty resident slot, and store every column to disk. -/
def ColumnarDataFrame.create {α : Type} (df : Frame α) (tmp : String) : ColumnarDataFrame α :=
  ColumnarDataFrame.store_data
    { columns := df.names, disk := [], current_column := none,
      current_column_name := none, reads := 0, temp_dir := tmp } df

/-- The write-back step of `load_column`: when a different column is
resident, its in-memory frame is pickled back to its file before the
swap; otherwise the disk is untouched. -/
def writeback {α : Type} (s : ColumnarDataFrame α) (name : String) :
    List (String × Frame α) :=
  match s.current_column_name, s.current_column with
  | some cn, some cur => if cn != name then diskWrite s.disk cn cur else s.disk
  | _, _ => s.disk

/-- `load_column`: write the resident column (if any, and different) back
to its file, then unpickle the requested column; a missing file is a
FileNotFoundError. -/
def load_column {α : Type} (s : ColumnarDataFrame α) (name : String) :
    Except String (Frame α × ColumnarDataFrame α) :=
  match diskRead (writeback s name) name with
  | none => Except.error "FileNotFoundError"
  | some f =>
      Except.ok (f,
        { s with
            disk := writeback s name, current_column := some f,
            current_column_name := some name, reads := s.reads + 1 })

/-- Run a sequence of `load_column` calls, keeping the final state. -/
def loadSeq {α : Type} (s : ColumnarDataFrame α) (names : List String) :
    Except String (ColumnarDataFrame α) :=
  names.foldlM (fun st n => (load_column st n).map (fun p => p.2)) s

theorem diskRead_cons {α : Type} (p : String × Frame α) (rest : List (String × Frame α))
    (c : String) :
    diskRead (p :: rest) c = if p.1 = c then some p.2 else diskRead rest c := by
  by_cases h : p.1 = c
  · rw [diskRead, List.find?_cons_of_pos _ (by simpa using h)]
    simp [h]
  · rw [diskRead, List.find?_cons_of_neg _ (by simpa using h)]
    simp [diskRead, h]

theorem diskRead_diskWrite_self {α : Type} (d : List (String × Frame α)) (k : String)
    (v : Frame α) : diskRead (diskWrite d k v) k = some v := by
  induction d with
  | nil => simp [diskWrite, diskRead_cons]
  | cons p rest ih =>
    by_cases h : p.1 = k
    · simp [diskWrite, h, diskRead_cons]
    · simp only [diskWrite, beq_iff_eq, h, if_false]
      rw [diskRead_cons]
      simp [h, ih]

theorem diskRead_diskWrite_ne {α : Type} (d : List (String × Frame α)) (k c : String)
    (v : Frame α) (h : k ≠ c) : diskRead (diskWrite d k v) c = diskRead d c := by
  induction d with
  | nil => simp [diskWrite, diskRead_cons, diskRead, h]
  | cons p rest ih =>
    by_cases hp : p.1 = k
    · simp only [diskWrite, beq_iff_eq, hp, if_true]
      rw [diskRead_cons, diskRead_cons]
      simp [hp, h]
    · simp only [diskWrite, beq_iff_eq, hp, if_false]
      rw [diskRead_cons, diskRead_cons]
      by_cases hc : p.1 = c
      · simp [hc]
      · simp [hc, ih]

theorem storeFold_read {α : Type} (df : Frame α) (cols : List String)
    (d : List (String × Frame α)) (c : String) :
    diskRead (cols.foldl (fun d2 c2 => diskWrite d2 c2 (df.select c2)) d) c =
      if c ∈ cols then some (df.select c) else diskRead d c := by
  induction cols generalizing d with
  | nil => simp
  | cons c0 rest ih =>
    rw [List.foldl_cons, ih]
    by_cases hr : c ∈ rest
    · simp [hr]
    · by_cases h0 : c = c0
      · simp [hr, h0, diskRead_diskWrite_self]
      · have : c0 ≠ c := fun h => h0 h.symm
        simp [hr, h0, diskRead_diskWrite_ne d c0 c _ this]

/-- The store invariant: the column list is the one captured at creation,
every column's file holds its single-column frame, and the resident
column (if any) equals its single-column frame. -/
def GoodState {α : Type} (df : Frame α) (s : ColumnarDataFrame α) : Prop :=
  s.columns = df.names ∧
  (∀ c ∈ df.names, diskRead s.disk c = some (df.select c)) ∧
  (∀ cn, s.current_column_name = some cn → s.current_column = some (df.select cn))

theorem create_good {α : Type} (df : Frame α) (tmp : String) :
    GoodState df (ColumnarDataFrame.create df tmp) ∧
      (ColumnarDataFrame.create df tmp).reads = 0 := by
  refine ⟨⟨rfl, fun c hc => ?_, fun cn h => by cases h⟩, rfl⟩
  simp [ColumnarDataFrame.create, ColumnarDataFrame.store_data, storeFold_read, hc]

theorem writeback_read {α : Type} (df : Frame α) (s : ColumnarDataFrame α)
    (hdisk : ∀ c ∈ df.names, diskRead s.disk c = some (df.select c))
    (hcur : ∀ cn, s.current_column_name = some cn → s.current_column = some (df.select cn))
    (c : String) (c2 : String) (hc2 : c2 ∈ df.names) :
    diskRead (writeback s c) c2 = some (df.select c2) := by
  unfold writeback
  split
  · rename_i cn cur heq1 heq2
    have h3 := hcur cn heq1
    rw [heq2] at h3
    obtain rfl : cur = df.select cn := Option.some.inj h3
    by_cases hne : cn = c
    · simp only [hne, bne_self_eq_false, Bool.false_eq_true, if_false]
      exact hdisk c2 hc2
    · rw [if_pos (bne_iff_ne.mpr hne)]
      by_cases h2 : cn = c2
      · subst h2
        exact diskRead_diskWrite_self s.disk cn (df.select cn)
      · rw [diskRead_diskWrite_ne _ _ _ _ h2]
        exact hdisk c2 hc2
  · exact hdisk c2 hc2

theorem load_column_good {α : Type} (df : Frame α) (s : ColumnarDataFrame α)
    (hg : GoodState df s) (c : String) (hc : c ∈ df.names) :
    ∃ s2, load_column s c = Except.ok (df.select c, s2) ∧ GoodState df s2 ∧
      s2.reads = s.reads + 1 := by
  rcases hg with ⟨hcols, hdisk, hcur⟩
  have hwb : ∀ c2 ∈ df.names, diskRead (writeback s c) c2 = some (df.select c2) :=
    fun c2 hc2 => writeback_read df s hdisk hcur c c2 hc2
  refine ⟨{ s with
      disk := writeback s c, current_column := some (df.select c),
      current_column_name := some c, reads := s.reads + 1 }, ?_, ⟨hcols, hwb, ?_⟩, rfl⟩
  · unfold load_column
    rw [hwb c hc]
  · intro cn h
    rw [Option.some.inj h]

theorem loadSeq_good {α : Type} (df : Frame α) (names2 : List String)
    (h : ∀ n ∈ names2, n ∈ df.names) (s : ColumnarDataFrame α) (hg : GoodState df s) :
    ∃ s2, loadSeq s names2 = Except.ok s2 ∧ GoodState df s2 ∧
      s2.reads = s.reads + names2.length := by
  induction names2 generalizing s with
  | nil => exact ⟨s, rfl, hg, rfl⟩
  | cons n rest ih =>
    rcases load_column_good df s hg n (h n (List.mem_cons_self n rest)) with
      ⟨s1, hload, hg1, hreads1⟩
    rcases ih (fun m hm => h m (List.mem_cons_of_mem n hm)) s1 hg1 with ⟨s2, hseq, hg2, hreads2⟩
    refine ⟨s2, ?_, hg2, ?_⟩
    · simp only [loadSeq, List.foldlM_cons, hload]
      exact hseq
    · rw [hreads2, hreads1, List.length_cons]
      ring

/-- Claim C5: a ColumnarDataFrame built from a 3-column dataset and asked
for columns A, B, C, A performs four disk reads and the final load of A
returns exactly the single-column frame of A as captured at creation;
in general, after any sequence of loads of stored columns, loading any
stored column returns its original single-column frame (store, evict and
reload is the identity on every column's data). -/
theorem load_column_round_trip :
    (∀ (la lb lc : List ℚ), ∃ s3 s4,
      loadSeq (ColumnarDataFrame.create ⟨[("A", la), ("B", lb), ("C", lc)]⟩ "tmp")
          ["A", "B", "C"] = Except.ok s3 ∧
      load_column s3 "A" = Except.ok ((⟨[("A", la)]⟩ : Frame ℚ), s4) ∧
      s4.reads = 4) ∧
    (∀ (α : Type) (df : Frame α) (tmp : String) (names2 : List String) (c : String),
      (∀ n ∈ names2, n ∈ df.names) → c ∈ df.names →
      ∃ s2 s3, loadSeq (ColumnarDataFrame.create df tmp) names2 = Except.ok s2 ∧
        load_column s2 c = Except.ok (df.select c, s3)) := by
  constructor
  · intro la lb lc
    have hmem : ∀ n ∈ ["A", "B", "C"],
        n ∈ (Frame.names (⟨[("A", la), ("B", lb), ("C", lc)]⟩ : Frame ℚ)) := by
      intro n hn
      simpa [Frame.names] using hn
    rcases create_good (⟨[("A", la), ("B", lb), ("C", lc)]⟩ : Frame ℚ) "tmp" with ⟨hg0, hr0⟩
    rcases loadSeq_good _ ["A", "B", "C"] hmem _ hg0 with ⟨s3, hseq, hg3, hr3⟩
    have hselA : Frame.select (⟨[("A", la), ("B", lb), ("C", lc)]⟩ : Frame ℚ) "A" =
        ⟨[("A", la)]⟩ := by
      simp [Frame.select]
    have hA : "A" ∈ Frame.names (⟨[("A", la), ("B", lb), ("C", lc)]⟩ : Frame ℚ) := by
      simp [Frame.names]
    rcases load_column_good _ s3 hg3 "A" hA with ⟨s4, hload, _, hr4⟩
    refine ⟨s3, s4, hseq, ?_, ?_⟩
    · rw [hload, hselA]
    · rw [hr4, hr3, hr0]
      rfl
  · intro α df tmp names2 c hn hc
    rcases create_good df tmp with ⟨hg0, _⟩
    rcases loadSeq_good df names2 hn _ hg0 with ⟨s2, hseq, hg2, _⟩
    rcases load_column_good df s2 hg2 c hc with ⟨s3, hload, _, _⟩
    exact ⟨s2, s3, hseq, hload⟩

/-- Witness for C5 at a concrete dataset: create a two-column frame, load
column B, then load column A and get back exactly A as stored. -/
theorem load_column_round_trip_witness :
    ∃ s2 s3,
      loadSeq (ColumnarDataFrame.create (⟨[("A", [7]), ("B", [8])]⟩ : Frame ℕ) "t") ["B"] =
        Except.ok s2 ∧
      load_column s2 "A" =
        Except.ok (Frame.select (⟨[("A", [7]), ("B", [8])]⟩ : Frame ℕ) "A", s3) :=
  load_column_round_trip.2 ℕ ⟨[("A", [7]), ("B", [8])]⟩ "t" ["B"] "A"
    (by decide) (by decide)

/-! ## Disposal (`__del__`, data_handling/columnar_dataframe.py)

`__del__` runs `shutil.rmtree(self.temp_dir)` with no guard:
`shutil.rmtree` removes an existing directory and raises
FileNotFoundError when the directory does not exist. -/

/-- A pool of existing directories. -/
structure FileSystem where
  dirs : List String
  deriving DecidableEq, Repr

/-- `shutil.rmtree`: remove an existing directory, raise on a missing one. -/
def rmtree (fs : FileSystem) (d : String) : Except String FileSystem :=
  if fs.dirs.contains d then Except.ok ⟨fs.dirs.erase d⟩
  else Except.error "FileNotFoundError"

/-- `__del__`: unconditionally `rmtree` the temp directory. -/
def ColumnarDataFrame.del {α : Type} (fs : FileSystem) (s : ColumnarDataFrame α) :
    Except String FileSystem :=
  rmtree fs s.temp_dir

/-- Claim C6 (refuting the claimed idempotence): the first disposal of a
store removes its temp directory, and a second disposal on the resulting
filesystem raises FileNotFoundError instead of being a safe no-op. -/
theorem del_second_raises :
    ColumnarDataFrame.del ⟨["tmpdir"]⟩
        (ColumnarDataFrame.create (⟨[("A", [0])]⟩ : Frame ℕ) "tmpdir") =
      Except.ok ⟨[]⟩ ∧
    ColumnarDataFrame.del ⟨[]⟩
        (ColumnarDataFrame.create (⟨[("A", [0])]⟩ : Frame ℕ) "tmpdir") =
      Except.error "FileNotFoundError" := by
  constructor <;> rfl

/-! ## analyze_trend_changes (analysis/trend.py)

The function reads two collaborators whose relevant behaviour is part of
their documented interface:
* `statsmodels.tsa.seasonal.seasonal_decompose` raises ValueError when
  the series is shorter than two complete cycles, and otherwise its
  trend component is the centred moving average of the series, with NaN
  at the positions where the window does not fit (`dropna` removes
  exactly those);
* `scipy.stats.wilcoxon` with the default zero method raises ValueError
  when every paired difference is zero.  The p-value of a non-degenerate
  test is a statistic outside the analysed code and is passed in as the
  `pval` parameter. -/

/-- The trend filter of seasonal_decompose: for an even period, one half,
period minus one ones, one half, all divided by the period; for an odd
period, period equal weights summing to one. -/
def decompose_filt (period : Nat) : List ℚ :=
  if period % 2 == 0 then
    (((1 : ℚ) / 2) :: (List.replicate (period - 1) (1 : ℚ) ++ [(1 : ℚ) / 2])).map
      (fun w => w / period)
  else
    List.replicate period ((1 : ℚ) / period)

/-- The centred two-sided filter of the series, kept only at the
positions where the whole window fits; statsmodels pads head and tail
with NaN, which `dropna` removes, so this is the trimmed trend.  The
filters used are symmetric, so convolution and correlation agree. -/
def conv_valid (x filt : List ℚ) : List ℚ :=
  (List.range (x.length + 1 - filt.length)).map
    (fun t => ((List.range filt.length).map (fun j => filt.getD j 0 * x.getD (t + j) 0)).sum)

/-- seasonal_decompose followed by `.trend.dropna()`: ValueError when the
series has fewer than two complete cycles, otherwise the trimmed trend. -/
def seasonal_decompose_trend (x : List ℚ) (period : Nat) : Except String (List ℚ) :=
  if x.length < 2 * period then
    Except.error "x must have 2 complete cycles"
  else
    Except.ok (conv_valid x (decompose_filt period))

/-- scipy.stats.wilcoxon under the default zero method: ValueError when
every paired difference is zero, otherwise the p-value given by `pval`. -/
def wilcoxon_pvalue (pval : List ℚ → List ℚ → ℚ) (x y : List ℚ) : Except String ℚ :=
  if (List.zipWith (fun a b => a - b) x y).all (fun d => d == 0) then
    Except.error "zero_method wilcox does not work if x minus y is zero for all elements"
  else
    Except.ok (pval x y)

/-- `df.set_index(time_column)[column_name]`: the series of the named
column once the time column has become the index. -/
def series_after_index {α : Type} (f : Frame α) (time_column column_name : String) :
    Except String (List α) := do
  let f2 ← f.set_index time_column
  f2.getColE column_name

/-- The decision step of analyze_trend_changes on the trimmed trend: with
more than one trend value, test all-but-last against all-but-first and
compare the p-value with 0.05; otherwise flag not significant and run
no test. -/
def trend_decision (pval : List ℚ → List ℚ → ℚ) (trend : List ℚ) : Except String Bool :=
  if trend.length > 1 then
    (wilcoxon_pvalue pval trend.dropLast (trend.drop 1)).map (fun p => decide (p < 1 / 20))
  else
    Except.ok false

/-- analyze_trend_changes: index both frames by the time column, take the
analysed column, concatenate original then new, decompose with the given
period, and decide significance on the trimmed trend; the Bool is the
trend_significant_change entry of the result map. -/
def analyze_trend_changes (pval : List ℚ → List ℚ → ℚ) (original_df new_df : Frame ℚ)
    (column_name time_column : String) (period : Nat) : Except String Bool := do
  let original_series ← series_after_index original_df time_column column_name
  let new_series ← series_after_index new_df time_column column_name
  let combined_series := original_series ++ new_series
  let trend ← seasonal_decompose_trend combined_series period
  trend_decision pval trend

/-- Claim C7, refuted as stated: an input whose combined length is at
most the period (here 3 values against period 4) does not make
analyze_trend_changes return false; seasonal_decompose rejects it with
ValueError, which the function propagates. -/
theorem analyze_trend_changes_short_input_raises :
    analyze_trend_changes (fun _ _ => 0)
        ⟨[("t", [0, 1]), ("v", [1, 2])]⟩ ⟨[("t", [2]), ("v", [3])]⟩ "v" "t" 4 =
      Except.error "x must have 2 complete cycles" := by
  rfl

/-- Claim C7, amended: whenever the trimmed trend reaching the decision
step of analyze_trend_changes has one or zero values, the step returns
trend_significant_change false and runs no significance test; an input
of combined length at most the period never reaches this step, because
the decomposition itself rejects any series shorter than two complete
cycles. -/
theorem trend_decision_short (pval : List ℚ → List ℚ → ℚ) (trend : List ℚ)
    (h : trend.length ≤ 1) : trend_decision pval trend = Except.ok false := by
  unfold trend_decision
  rw [if_neg]
  omega

/-- Witness for the amended C7 at a one-value trend. -/
theorem trend_decision_short_witness :
    trend_decision (fun _ _ => 0) [5] = Except.ok false :=
  trend_decision_short (fun _ _ => 0) [5] (by decide)

theorem map_getD_range (l : List ℚ) :
    (List.range l.length).map (fun j => l.getD j 0) = l := by
  apply List.ext_getElem
  · simp
  · intro i h1 h2
    simp only [List.getElem_map, List.getElem_range]
    exact List.getD_eq_getElem l 0 h2

theorem conv_valid_replicate (n : Nat) (q : ℚ) (filt : List ℚ) :
    conv_valid (List.replicate n q) filt =
      List.replicate (n + 1 - filt.length) (filt.sum * q) := by
  unfold conv_valid
  rw [List.length_replicate]
  apply List.ext_getElem
  · simp
  · intro i h1 h2
    simp only [List.getElem_map, List.getElem_range, List.getElem_replicate]
    have hi : i < n + 1 - filt.length := by simpa using h1
    have hmap : (List.range filt.length).map
          (fun j => filt.getD j 0 * (List.replicate n q).getD (i + j) 0) =
        (List.range filt.length).map (fun j => filt.getD j 0 * q) := by
      apply List.map_congr_left
      intro j hj
      have hj2 : j < filt.length := List.mem_range.mp hj
      have hin : i + j < n := by omega
      have hlt : i + j < (List.replicate n q).length := by simpa using hin
      rw [List.getD_eq_getElem (List.replicate n q) 0 hlt, List.getElem_replicate]
    rw [hmap, List.sum_map_mul_right, map_getD_range]

theorem trend_decision_replicate (pval : List ℚ → List ℚ → ℚ) (k : Nat) (c : ℚ)
    (h : 2 ≤ k) :
    trend_decision pval (List.replicate k c) =
      Except.error "zero_method wilcox does not work if x minus y is zero for all elements" := by
  have hlen : (List.replicate k c).length > 1 := by
    rw [List.length_replicate]
    omega
  have hcond : (List.zipWith (fun a b => a - b) (List.replicate k c).dropLast
      ((List.replicate k c).drop 1)).all (fun d => d == 0) = true := by
    rw [List.dropLast_replicate, List.drop_replicate, List.zipWith_replicate, List.all_eq_true]
    intro x hx
    rcases List.mem_replicate.mp hx with ⟨_, rfl⟩
    simp
  unfold trend_decision wilcoxon_pvalue
  rw [if_pos hlen, if_pos hcond]
  rfl

/-- Claim C2, refuting the claimed handling: on an original and a new
series holding one identical constant value (four rows each, period 2,
so the combined series has at least two times period values), the
decomposition trend is constant, every paired difference is zero, and
analyze_trend_changes propagates the ValueError of the degenerate
significance test instead of returning trend_significant_change false. -/
theorem analyze_trend_changes_constant_raises (pval : List ℚ → List ℚ → ℚ) :
    analyze_trend_changes pval
        ⟨[("t", [0, 1, 2, 3]), ("v", [5, 5, 5, 5])]⟩
        ⟨[("t", [4, 5, 6, 7]), ("v", [5, 5, 5, 5])]⟩ "v" "t" 2 =
      Except.error "zero_method wilcox does not work if x minus y is zero for all elements" := by
  have hstep : analyze_trend_changes pval
        ⟨[("t", [0, 1, 2, 3]), ("v", [5, 5, 5, 5])]⟩
        ⟨[("t", [4, 5, 6, 7]), ("v", [5, 5, 5, 5])]⟩ "v" "t" 2 =
      trend_decision pval (conv_valid (List.replicate 8 (5 : ℚ)) (decompose_filt 2)) := rfl
  have hlen3 : (decompose_filt 2).length = 3 := rfl
  rw [hstep, conv_valid_replicate, hlen3]
  exact trend_decision_replicate pval (8 + 1 - 3) _ (by norm_num)

/-! ## filter_nested_fields (utils/profiling.py)

A value in the nested profiling report is either an opaque terminal
value or a dict; the whitelist has the same shape (terminal entries are
the marker True). -/

/-- A Python value as traversed by the profiling reduction: an opaque
terminal value of type `α`, or a dict with ordered string keys. -/
inductive PyVal (α : Type) where
  | atom : α → PyVal α
  | dict : List (String × PyVal α) → PyVal α

/-- Python dict lookup: the value at the first matching key, if any;
models `key in d` (is-some) together with `d[key]`. -/
def lookupKey {α : Type} (d : List (String × PyVal α)) (k : String) : Option (PyVal α) :=
  (d.find? (fun p => p.1 == k)).map (fun p => p.2)

/-- filter_nested_fields: keep a key only if the whitelist has it; when
both the value and the whitelist entry are dicts, recurse; otherwise
keep the value as-is. -/
def filter_nested_fields {α : Type} :
    List (String × PyVal α) → List (String × PyVal α) → List (String × PyVal α)
  | [], _ => []
  | (k, v) :: rest, fields =>
    match lookupKey fields k with
    | none => filter_nested_fields rest fields
    | some fv =>
      match v, fv with
      | PyVal.dict dv, PyVal.dict fd =>
          (k, PyVal.dict (filter_nested_fields dv fd)) :: filter_nested_fields rest fields
      | PyVal.atom a, _ => (k, PyVal.atom a) :: filter_nested_fields rest fields
      | PyVal.dict dv, PyVal.atom _ => (k, PyVal.dict dv) :: filter_nested_fields rest fields

/-- Claim C8: filter_nested_fields is idempotent; filtering an already
filtered mapping against the same whitelist returns it unchanged. -/
theorem filter_nested_fields_idem {α : Type} (d w : List (String × PyVal α)) :
    filter_nested_fields (filter_nested_fields d w) w = filter_nested_fields d w := by
  induction d, w using filter_nested_fields.induct <;> simp_all [filter_nested_fields]

/-! ## calculate_observability_metrics (utils/profiling.py)

The flattened profiling table is a pandas DataFrame: a column set plus
one row per profiled variable, where a row holds NaN in any column it
has no value for (union-of-keys assembly).  `df.assign` evaluates its
keyword lambdas in order against the frame; accessing a column that is
not in the column set raises KeyError, and pandas float arithmetic on
present columns follows IEEE special values (division by zero yields an
infinity or NaN, never an exception). -/

/-- A pandas float cell value: a finite rational, an infinity, or NaN. -/
inductive PFloat where
  | num : ℚ → PFloat
  | inf : PFloat
  | ninf : PFloat
  | nan : PFloat
  deriving DecidableEq, Repr

/-- IEEE division as performed by pandas: a zero divisor yields an
infinity by sign, or NaN for zero over zero; NaN propagates. -/
def PFloat.div : PFloat → PFloat → PFloat
  | PFloat.nan, _ => PFloat.nan
  | _, PFloat.nan => PFloat.nan
  | PFloat.num a, PFloat.num b =>
      if b = 0 then (if 0 < a then PFloat.inf else if a < 0 then PFloat.ninf else PFloat.nan)
      else PFloat.num (a / b)
  | PFloat.num _, PFloat.inf => PFloat.num 0
  | PFloat.num _, PFloat.ninf => PFloat.num 0
  | PFloat.inf, PFloat.num b => if b < 0 then PFloat.ninf else PFloat.inf
  | PFloat.ninf, PFloat.num b => if b < 0 then PFloat.inf else PFloat.ninf
  | PFloat.inf, PFloat.inf => PFloat.nan
  | PFloat.inf, PFloat.ninf => PFloat.nan
  | PFloat.ninf, PFloat.inf => PFloat.nan
  | PFloat.ninf, PFloat.ninf => PFloat.nan

/-- IEEE multiplication; NaN propagates, infinity by sign, zero times an
infinity is NaN. -/
def PFloat.mul : PFloat → PFloat → PFloat
  | PFloat.nan, _ => PFloat.nan
  | _, PFloat.nan => PFloat.nan
  | PFloat.num a, PFloat.num b => PFloat.num (a * b)
  | PFloat.num a, PFloat.inf =>
      if 0 < a then PFloat.inf else if a < 0 then PFloat.ninf else PFloat.nan
  | PFloat.num a, PFloat.ninf =>
      if 0 < a then PFloat.ninf else if a < 0 then PFloat.inf else PFloat.nan
  | PFloat.inf, PFloat.num b =>
      if 0 < b then PFloat.inf else if b < 0 then PFloat.ninf else PFloat.nan
  | PFloat.ninf, PFloat.num b =>
      if 0 < b then PFloat.ninf else if b < 0 then PFloat.inf else PFloat.nan
  | PFloat.inf, PFloat.inf => PFloat.inf
  | PFloat.inf, PFloat.ninf => PFloat.ninf
  | PFloat.ninf, PFloat.inf => PFloat.ninf
  | PFloat.ninf, PFloat.ninf => PFloat.inf

/-- IEEE subtraction; NaN propagates, same-signed infinities cancel to NaN. -/
def PFloat.sub : PFloat → PFloat → PFloat
  | PFloat.nan, _ => PFloat.nan
  | _, PFloat.nan => PFloat.nan
  | PFloat.num a, PFloat.num b => PFloat.num (a - b)
  | PFloat.num _, PFloat.inf => PFloat.ninf
  | PFloat.num _, PFloat.ninf => PFloat.inf
  | PFloat.inf, PFloat.num _ => PFloat.inf
  | PFloat.ninf, PFloat.num _ => PFloat.ninf
  | PFloat.inf, PFloat.inf => PFloat.nan
  | PFloat.inf, PFloat.ninf => PFloat.inf
  | PFloat.ninf, PFloat.inf => PFloat.ninf
  | PFloat.ninf, PFloat.ninf => PFloat.nan

/-- IEEE less-than as a Bool; any comparison with NaN is false. -/
def PFloat.ltb : PFloat → PFloat → Bool
  | PFloat.nan, _ => false
  | _, PFloat.nan => false
  | PFloat.num a, PFloat.num b => decide (a < b)
  | PFloat.num _, PFloat.inf => true
  | PFloat.num _, PFloat.ninf => false
  | PFloat.inf, _ => false
  | PFloat.ninf, PFloat.ninf => false
  | PFloat.ninf, _ => true

/-- True exactly for a finite value. -/
def PFloat.isFinite : PFloat → Bool
  | PFloat.num _ => true
  | _ => false

/-- A table cell: a float, a Boolean statistic, or a string such as the
variable name. -/
inductive Cell where
  | f : PFloat → Cell
  | b : Bool → Cell
  | s : String → Cell
  deriving DecidableEq, Repr

/-- Numeric reading of a cell under numpy coercion: booleans count as
one and zero; a non-numeric cell reads as NaN. -/
def Cell.toPFloat : Cell → PFloat
  | Cell.f x => x
  | Cell.b true => PFloat.num 1
  | Cell.b false => PFloat.num 0
  | Cell.s _ => PFloat.nan

/-- Elementwise division of cells. -/
def cellDiv (a b : Cell) : Cell := Cell.f (PFloat.div a.toPFloat b.toPFloat)

/-- Elementwise multiplication of cells. -/
def cellMul (a b : Cell) : Cell := Cell.f (PFloat.mul a.toPFloat b.toPFloat)

/-- Elementwise subtraction of cells. -/
def cellSub (a b : Cell) : Cell := Cell.f (PFloat.sub a.toPFloat b.toPFloat)

/-- Elementwise comparison of cells, yielding a Boolean cell. -/
def cellLt (a b : Cell) : Cell := Cell.b (PFloat.ltb a.toPFloat b.toPFloat)

/-- A flattened profiling table: the column set, and one association
list of cells per row (a row reads NaN at a column it has no entry for). -/
structure Table where
  cols : List String
  rows : List (List (String × Cell))
  deriving DecidableEq, Repr

/-- `df[c]`: KeyError when `c` is not a column, otherwise the series of
the column's cells with NaN where a row has no value. -/
def Table.getSeries (t : Table) (c : String) : Except String (List Cell) :=
  if c ∈ t.cols then
    Except.ok (t.rows.map
      (fun r => (((r.find? (fun p => p.1 == c)).map (fun p => p.2)).getD (Cell.f PFloat.nan))))
  else
    Except.error "KeyError"

/-- `df[c] = series`: record the new column and give each row its value. -/
def Table.addCol (t : Table) (c : String) (vals : List Cell) : Table :=
  { cols := t.cols ++ [c],
    rows := (t.rows.zip vals).map (fun p => p.1 ++ [(c, p.2)]) }

/-- calculate_observability_metrics: the twelve `assign` keyword lambdas
of the source, evaluated in order; each series access is a column
lookup on the frame (the assigned metric columns are never read back,
so every lookup hits the input frame).  The first missing column aborts
with KeyError, exactly as `x[...]` does in pandas. -/
def calculate_observability_metrics (df : Table) : Except String Table := do
  let nd ← df.getSeries "n_distinct"
  let nn ← df.getSeries "n"
  let ccr := List.zipWith cellDiv nd nn
  let pm ← df.getSeries "p_missing"
  let nd2 ← df.getSeries "n_distinct"
  let cmi := List.zipWith cellMul pm nd2
  let csp ← df.getSeries "chi_squared_pvalue"
  let cca := csp.map (fun v => cellLt v (Cell.f (PFloat.num (1 / 20))))
  let gg ← df.getSeries "gap_stats_n_gaps"
  let nn2 ← df.getSeries "n"
  let tgr := List.zipWith cellDiv gg nn2
  let sd ← df.getSeries "std"
  let mu ← df.getSeries "mean"
  let tvi := List.zipWith cellDiv sd mu
  let sd2 ← df.getSeries "std"
  let mu2 ← df.getSeries "mean"
  let ttc := List.zipWith cellDiv sd2 mu2
  let pz ← df.getSeries "p_zeros"
  let rg ← df.getSeries "range"
  let sd3 ← df.getSeries "std"
  let noi := List.zipWith cellDiv rg sd3
  let sk ← df.getSeries "skewness"
  let cvv ← df.getSeries "cv"
  let pm2 ← df.getSeries "p_missing"
  let mu3 ← df.getSeries "mean"
  let nmi := List.zipWith cellMul pm2 mu3
  let pm3 ← df.getSeries "p_missing"
  let dc := pm3.map (fun v => cellSub (Cell.f (PFloat.num 1)) v)
  return ((((((((((((df.addCol "categorical_cardinality_ratio" ccr).addCol
    "categorical_missingness_impact" cmi).addCol
    "categorical_chi_squared_alert" cca).addCol
    "timeseries_gap_ratio" tgr).addCol
    "timeseries_volatility_index" tvi).addCol
    "timeseries_trend_consistency" ttc).addCol
    "numeric_zero_ratio" pz).addCol
    "numeric_outlier_indicator" noi).addCol
    "numeric_skewness_indicator" sk).addCol
    "numeric_cv" cvv).addCol
    "numeric_missing_impact" nmi).addCol
    "data_completeness" dc)

/-- The filtered-and-flattened profiling table of a single Numeric
variable: exactly the flattened Numeric whitelist fields plus the
variable name, which is what filtering and flattening a Numeric-only
report produces. -/
def numericOnlyTable : Table :=
  { cols := ["column_name", "n", "n_distinct", "p_distinct", "is_unique", "n_unique",
      "p_unique", "ordering", "n_missing", "p_missing", "memory_size", "mean", "std",
      "variance", "min", "max", "kurtosis", "skewness", "sum", "mad", "range", "iqr",
      "cv", "p_zeros", "chi_squared_statistic", "chi_squared_pvalue"],
    rows := [[("column_name", Cell.s "x"), ("n", Cell.f (PFloat.num 10)),
      ("n_distinct", Cell.f (PFloat.num 4)), ("p_distinct", Cell.f (PFloat.num (2 / 5))),
      ("is_unique", Cell.b false), ("n_unique", Cell.f (PFloat.num 2)),
      ("p_unique", Cell.f (PFloat.num (1 / 5))), ("ordering", Cell.b true),
      ("n_missing", Cell.f (PFloat.num 0)), ("p_missing", Cell.f (PFloat.num 0)),
      ("memory_size", Cell.f (PFloat.num 160)), ("mean", Cell.f (PFloat.num 3)),
      ("std", Cell.f (PFloat.num 1)), ("variance", Cell.f (PFloat.num 1)),
      ("min", Cell.f (PFloat.num 1)), ("max", Cell.f (PFloat.num 5)),
      ("kurtosis", Cell.f (PFloat.num 0)), ("skewness", Cell.f (PFloat.num 0)),
      ("sum", Cell.f (PFloat.num 30)), ("mad", Cell.f (PFloat.num 1)),
      ("range", Cell.f (PFloat.num 4)), ("iqr", Cell.f (PFloat.num 2)),
      ("cv", Cell.f (PFloat.num (1 / 3))), ("p_zeros", Cell.f (PFloat.num 0)),
      ("chi_squared_statistic", Cell.f (PFloat.num 2)),
      ("chi_squared_pvalue", Cell.f (PFloat.num (1 / 2)))]] }

/-- Claim C3, refuted as stated: on the filtered-and-flattened table of
a set of variables that are all Numeric (a single Numeric variable
here), the derived-metric computation raises KeyError at the first
referenced column that the table lacks (gap_stats_n_gaps) instead of
completing with empty cells for the underivable metrics. -/
theorem calculate_observability_metrics_numeric_only_raises :
    calculate_observability_metrics numericOnlyTable = Except.error "KeyError" := by
  rfl

/-- The input columns referenced by the twelve derived metrics. -/
def metricsInputCols : List String :=
  ["n_distinct", "n", "p_missing", "chi_squared_pvalue", "gap_stats_n_gaps",
   "std", "mean", "p_zeros", "range", "skewness", "cv"]

theorem getSeries_isOk (t : Table) (c : String) (h : c ∈ t.cols) :
    ∃ v, t.getSeries c = Except.ok v := by
  unfold Table.getSeries
  rw [if_pos h]
  exact ⟨_, rfl⟩

theorem except_bind_ok {α β : Type} (v : α) (f : α → Except String β) :
    (Except.ok v : Except String α) >>= f = f v := rfl

theorem except_pure_eq {α : Type} (v : α) :
    (pure v : Except String α) = Except.ok v := rfl

theorem calculate_observability_metrics_eq (df : Table)
    (v1 v2 v3 v4 v5 v6 v7 v8 v9 v10 v11 : List Cell)
    (h1 : df.getSeries "n_distinct" = Except.ok v1) (h2 : df.getSeries "n" = Except.ok v2)
    (h3 : df.getSeries "p_missing" = Except.ok v3)
    (h4 : df.getSeries "chi_squared_pvalue" = Except.ok v4)
    (h5 : df.getSeries "gap_stats_n_gaps" = Except.ok v5)
    (h6 : df.getSeries "std" = Except.ok v6)
    (h7 : df.getSeries "mean" = Except.ok v7) (h8 : df.getSeries "p_zeros" = Except.ok v8)
    (h9 : df.getSeries "range" = Except.ok v9) (h10 : df.getSeries "skewness" = Except.ok v10)
    (h11 : df.getSeries "cv" = Except.ok v11) :
    calculate_observability_metrics df = Except.ok
      ((((((((((((df.addCol "categorical_cardinality_ratio" (List.zipWith cellDiv v1 v2)).addCol
        "categorical_missingness_impact" (List.zipWith cellMul v3 v1)).addCol
        "categorical_chi_squared_alert" (v4.map (fun v => cellLt v (Cell.f (PFloat.num (1 / 20)))))).addCol
        "timeseries_gap_ratio" (List.zipWith cellDiv v5 v2)).addCol
        "timeseries_volatility_index" (List.zipWith cellDiv v6 v7)).addCol
        "timeseries_trend_consistency" (List.zipWith cellDiv v6 v7)).addCol
        "numeric_zero_ratio" v8).addCol
        "numeric_outlier_indicator" (List.zipWith cellDiv v9 v6)).addCol
        "numeric_skewness_indicator" v10).addCol
        "numeric_cv" v11).addCol
        "numeric_missing_impact" (List.zipWith cellMul v3 v7)).addCol
        "data_completeness" (v3.map (fun v => cellSub (Cell.f (PFloat.num 1)) v))) := by
  simp only [calculate_observability_metrics, h1, h2, h3, h4, h5, h6, h7, h8, h9, h10, h11,
    except_bind_ok, except_pure_eq]

/-- Claim C9: when every input column referenced by the derived metrics
is present, calculate_observability_metrics completes without aborting,
and the cellwise division it applies returns a non-finite value (an
infinity or NaN) whenever the divisor is zero, whatever the numerator. -/
theorem calculate_observability_metrics_div_zero (df : Table)
    (h : ∀ c ∈ metricsInputCols, c ∈ df.cols) :
    (∃ t, calculate_observability_metrics df = Except.ok t) ∧
    (∀ x : PFloat, (PFloat.div x (PFloat.num 0)).isFinite = false) := by
  constructor
  · obtain ⟨v1, h1⟩ := getSeries_isOk df "n_distinct" (h _ (by simp [metricsInputCols]))
    obtain ⟨v2, h2⟩ := getSeries_isOk df "n" (h _ (by simp [metricsInputCols]))
    obtain ⟨v3, h3⟩ := getSeries_isOk df "p_missing" (h _ (by simp [metricsInputCols]))
    obtain ⟨v4, h4⟩ := getSeries_isOk df "chi_squared_pvalue" (h _ (by simp [metricsInputCols]))
    obtain ⟨v5, h5⟩ := getSeries_isOk df "gap_stats_n_gaps" (h _ (by simp [metricsInputCols]))
    obtain ⟨v6, h6⟩ := getSeries_isOk df "std" (h _ (by simp [metricsInputCols]))
    obtain ⟨v7, h7⟩ := getSeries_isOk df "mean" (h _ (by simp [metricsInputCols]))
    obtain ⟨v8, h8⟩ := getSeries_isOk df "p_zeros" (h _ (by simp [metricsInputCols]))
    obtain ⟨v9, h9⟩ := getSeries_isOk df "range" (h _ (by simp [metricsInputCols]))
    obtain ⟨v10, h10⟩ := getSeries_isOk df "skewness" (h _ (by simp [metricsInputCols]))
    obtain ⟨v11, h11⟩ := getSeries_isOk df "cv" (h _ (by simp [metricsInputCols]))
    exact ⟨_, calculate_observability_metrics_eq df v1 v2 v3 v4 v5 v6 v7 v8 v9 v10 v11
      h1 h2 h3 h4 h5 h6 h7 h8 h9 h10 h11⟩
  · intro x
    cases x with
    | num a =>
      simp only [PFloat.div, if_pos rfl]
      split_ifs <;> rfl
    | inf =>
      simp only [PFloat.div]
      split_ifs <;> rfl
    | ninf =>
      simp only [PFloat.div]
      split_ifs <;> rfl
    | nan => rfl

/-- A one-row table for the C9 witness: every referenced input column is
present, and n, std and mean are zero so that every division metric has
a zero divisor. -/
def c9Table : Table :=
  { cols := metricsInputCols,
    rows := [[("n_distinct", Cell.f (PFloat.num 1)), ("n", Cell.f (PFloat.num 0)),
      ("p_missing", Cell.f (PFloat.num 0)), ("chi_squared_pvalue", Cell.f (PFloat.num 1)),
      ("gap_stats_n_gaps", Cell.f (PFloat.num 0)), ("std", Cell.f (PFloat.num 0)),
      ("mean", Cell.f (PFloat.num 0)), ("p_zeros", Cell.f (PFloat.num 0)),
      ("range", Cell.f (PFloat.num 2)), ("skewness", Cell.f (PFloat.num 0)),
      ("cv", Cell.f (PFloat.num 0))]] }

/-- Witness for C9 at a concrete one-row table whose divisors are zero. -/
theorem calculate_observability_metrics_div_zero_witness :
    (∃ t, calculate_observability_metrics c9Table = Except.ok t) ∧
    (∀ x : PFloat, (PFloat.div x (PFloat.num 0)).isFinite = false) :=
  calculate_observability_metrics_div_zero c9Table (by decide)

/-! ## process_column (analysis/column.py)

`process_column` starts a record with the column name, looks the column
up in the type schema (a Python dict lookup, so a KeyError when the
column is absent), runs the drift branch matching the declared type,
then overlays the reduced single-column profiling fields.  The
profiling stage (`run_ydata_profiling_report` around the external
ProfileReport) is passed in as the `profiler` parameter. -/

/-- A value of a result record: the column name, a drift flag, the list
of new categorical values, or a profiling cell. -/
inductive RVal where
  | str : String → RVal
  | boolean : Bool → RVal
  | vals : List ℚ → RVal
  | cell : Cell → RVal
  deriving DecidableEq, Repr

/-- Configuration for analysing a single column (config/analysis.py). -/
structure ColumnAnalysisConfig where
  column_name : String
  time_column : String
  period : Nat
  type_schema : List (String × String)
  deriving Repr

/-- `type_schema[column_name]`: a dict lookup, KeyError when absent. -/
def schemaLookup (ts : List (String × String)) (c : String) : Except String String :=
  match (ts.find? (fun p => p.1 == c)).map (fun p => p.2) with
  | some t => Except.ok t
  | none => Except.error "KeyError"

/-- process_column: record the column name, dispatch the drift branch on
the declared type, then overlay the profiling fields produced by the
profiling stage for `new_df[[column_name]]` and the declared type. -/
def process_column (pval : List ℚ → List ℚ → ℚ)
    (profiler : Frame ℚ → String → Except String (List (String × RVal)))
    (original_df new_df : Frame ℚ) (config : ColumnAnalysisConfig) :
    Except String (List (String × RVal)) := do
  let column_type ← schemaLookup config.type_schema config.column_name
  let drift ←
    if column_type == "timeseries" then
      (analyze_trend_changes pval original_df new_df config.column_name config.time_column
        config.period).map (fun b => [("trend_significant_change", RVal.boolean b)])
    else if column_type == "categorical" then
      (detect_new_categorical_values original_df new_df config.column_name).map
        (fun o => match o with
          | some l => [("new_values", RVal.vals l)]
          | none => [])
    else
      pure []
  let profile_fields ← profiler (new_df.select config.column_name) column_type
  return ("column_name", RVal.str config.column_name) :: (drift ++ profile_fields)

/-- Claim C4, refuted as stated: a column whose name is absent from the
TypeSchema does not receive a profiling-only record; the schema lookup
itself raises KeyError and process_column aborts before either branch
and before profiling. -/
theorem process_column_missing_schema_raises :
    process_column (fun _ _ => 0) (fun _ _ => Except.ok [])
      ⟨[("t", [0]), ("v", [1])]⟩ ⟨[("t", [0]), ("v", [2])]⟩
      { column_name := "v", time_column := "t", period := 2, type_schema := [] } =
      Except.error "KeyError" := rfl

/-- Claim C4, amended: a column whose declared type is present in the
TypeSchema but is neither timeseries nor categorical runs neither
drift-analysis branch, and its record is the column name followed by
whatever profiling fields the profiling stage yields. -/
theorem process_column_unrecognized_type (pval : List ℚ → List ℚ → ℚ)
    (profiler : Frame ℚ → String → Except String (List (String × RVal)))
    (oF nF : Frame ℚ) (cfg : ColumnAnalysisConfig) (ty : String)
    (hty : schemaLookup cfg.type_schema cfg.column_name = Except.ok ty)
    (hts : ty ≠ "timeseries") (hcat : ty ≠ "categorical") :
    process_column pval profiler oF nF cfg =
      (profiler (nF.select cfg.column_name) ty).map
        (fun pf => ("column_name", RVal.str cfg.column_name) :: pf) := by
  unfold process_column
  rw [hty, except_bind_ok]
  rw [if_neg (by simp [hts]), if_neg (by simp [hcat])]
  cases hp : profiler (nF.select cfg.column_name) ty <;> rfl

/-- Witness for the amended C4: a declared numeric column gets only the
column name and the profiling fields (none here). -/
theorem process_column_unrecognized_type_witness :
    process_column (fun _ _ => 0) (fun _ _ => Except.ok [])
      ⟨[("t", [0]), ("v", [1])]⟩ ⟨[("t", [0]), ("v", [2])]⟩
      { column_name := "v", time_column := "t", period := 2,
        type_schema := [("v", "numeric")] } =
      Except.ok [("column_name", RVal.str "v")] :=
  process_column_unrecognized_type (fun _ _ => 0) (fun _ _ => Except.ok [])
    ⟨[("t", [0]), ("v", [1])]⟩ ⟨[("t", [0]), ("v", [2])]⟩
    { column_name := "v", time_column := "t", period := 2,
      type_schema := [("v", "numeric")] } "numeric" rfl (by decide) (by decide)

/-! ## Claim C10: ColumnarDataFrame inputs break timeseries analysis -/

theorem filter_names_eq {α : Type} (cols : List (String × List α)) (c : String)
    (hnd : (cols.map (fun p => p.1)).Nodup) (hc : c ∈ cols.map (fun p => p.1)) :
    (cols.filter (fun p => p.1 == c)).map (fun p => p.1) = [c] := by
  induction cols with
  | nil => simp at hc
  | cons p rest ih =>
    simp only [List.map_cons, List.nodup_cons] at hnd
    rcases hnd with ⟨hp, hrest⟩
    by_cases h : p.1 = c
    · have hfil : rest.filter (fun q => q.1 == c) = [] := by
        rw [List.filter_eq_nil_iff]
        intro q hq
        simp only [beq_iff_eq]
        intro hqc
        exact hp (by
          rw [h, ← hqc]
          exact List.mem_map_of_mem (fun p => p.1) hq)
      simp [List.filter_cons, h, hfil]
    · have hc2 : c ∈ rest.map (fun p => p.1) := by
        rcases List.mem_cons.mp hc with h1 | h1
        · exact absurd h1.symm h
        · exact h1
      simp only [List.filter_cons, beq_iff_eq, h, if_false]
      exact ih hrest hc2

theorem select_names_eq {α : Type} (df : Frame α) (c : String)
    (hnd : df.names.Nodup) (hc : c ∈ df.names) :
    (df.select c).names = [c] :=
  filter_names_eq df.cols c hnd hc

/-- Claim C10: a column loaded back from a ColumnarDataFrame is a frame
holding exactly the single requested column, because each column is
persisted alone at creation; hence for an analysed column declared
timeseries and distinct from the time column, the loaded frame lacks
the time column, analyze_trend_changes fails at set_index with
KeyError, and process_column on that frame aborts with the same error. -/
theorem columnar_timeseries_frames_lack_time_column
    (df nF : Frame ℚ) (tmp : String) (c tc : String) (pval : List ℚ → List ℚ → ℚ)
    (profiler : Frame ℚ → String → Except String (List (String × RVal)))
    (period : Nat) (hc : c ∈ df.names) (hnd : df.names.Nodup) (htc : tc ≠ c) :
    ∃ s2, load_column (ColumnarDataFrame.create df tmp) c = Except.ok (df.select c, s2) ∧
      (df.select c).names = [c] ∧
      analyze_trend_changes pval (df.select c) nF c tc period = Except.error "KeyError" ∧
      process_column pval profiler (df.select c) nF
        { column_name := c, time_column := tc, period := period,
          type_schema := [(c, "timeseries")] } = Except.error "KeyError" := by
  have hnames : (df.select c).names = [c] := select_names_eq df c hnd hc
  rcases create_good df tmp with ⟨hg0, _⟩
  rcases load_column_good df _ hg0 c hc with ⟨s2, hload, _, _⟩
  have hser : series_after_index (df.select c) tc c = Except.error "KeyError" := by
    unfold series_after_index Frame.set_index
    rw [if_neg (by
      rw [hnames]
      simp [htc])]
    rfl
  have hanalyze : analyze_trend_changes pval (df.select c) nF c tc period =
      Except.error "KeyError" := by
    unfold analyze_trend_changes
    rw [hser]
    rfl
  have hschema : schemaLookup [(c, "timeseries")] c = Except.ok "timeseries" := by
    simp [schemaLookup]
  refine ⟨s2, hload, hnames, hanalyze, ?_⟩
  unfold process_column
  rw [hschema, except_bind_ok, if_pos (by simp), hanalyze]
  rfl

/-- Witness for C10 at a concrete two-column dataset. -/
theorem columnar_timeseries_frames_lack_time_column_witness :
    ∃ s2, load_column (ColumnarDataFrame.create (⟨[("t", [0]), ("v", [1])]⟩ : Frame ℚ) "d") "v" =
        Except.ok (Frame.select ⟨[("t", [0]), ("v", [1])]⟩ "v", s2) ∧
      (Frame.select (⟨[("t", [0]), ("v", [1])]⟩ : Frame ℚ) "v").names = ["v"] ∧
      analyze_trend_changes (fun _ _ => 0)
        (Frame.select ⟨[("t", [0]), ("v", [1])]⟩ "v") ⟨[("t", [0]), ("v", [2])]⟩
        "v" "t" 2 = Except.error "KeyError" ∧
      process_column (fun _ _ => 0) (fun _ _ => Except.ok [])
        (Frame.select ⟨[("t", [0]), ("v", [1])]⟩ "v") ⟨[("t", [0]), ("v", [2])]⟩
        { column_name := "v", time_column := "t", period := 2,
          type_schema := [("v", "timeseries")] } = Except.error "KeyError" :=
  columnar_timeseries_frames_lack_time_column ⟨[("t", [0]), ("v", [1])]⟩
    ⟨[("t", [0]), ("v", [2])]⟩ "d" "v" "t" (fun _ _ => 0) (fun _ _ => Except.ok []) 2
    (by decide) (by decide) (by decide)

end OneDataReport
